import Mathlib

/-!
Verification of the credit-ledger subsystem of the Civil Sathi rewards
platform (Node.js/Express, file-backed JSON storage plus Mongoose models).

The embedding is shallow: every definition below is translated from a
named function of the repository.  JavaScript objects stored by the
flat-file database (src/unnamed/part_002, class FileStorage) are modelled
as association lists of string keys to JSON values; property access,
object spread merge and truthiness follow the JavaScript semantics for
the value shapes the application actually stores (strings, integers,
booleans, null and nested objects).  Date-valued fields are modelled as
epoch-millisecond integers, which is order-isomorphic to the ISO-8601
strings the code writes and compares through the Date constructor.
-/

set_option maxRecDepth 100000

/-- A JSON-style value as stored by FileStorage (src/unnamed/part_002).
The nan constructor represents the IEEE NaN produced by arithmetic on
undefined fields; it is falsy and not equal to any number. -/
inductive Jval where
  | str (s : String)
  | int (n : Int)
  | bool (b : Bool)
  | null
  | nan
  | obj (fields : List (String × Jval))

/-- A stored document: a JavaScript object as an ordered association list. -/
abbrev Obj := List (String × Jval)

/-- Property access o[k]: the value at the first binding of key k, none for
a missing property (JavaScript undefined). -/
def objGet (o : Obj) (k : String) : Option Jval :=
  match o with
  | [] => none
  | (k2, v) :: rest => if k2 = k then some v else objGet rest k

/-- Property assignment: replaces the first binding of k, or appends a new
binding, exactly as JavaScript object update keeps key insertion order. -/
def objSet (o : Obj) (k : String) (v : Jval) : Obj :=
  match o with
  | [] => [(k, v)]
  | (k2, v2) :: rest => if k2 = k then (k, v) :: rest else (k2, v2) :: objSet rest k v

/-- Object spread merge: the JavaScript literal with o spread first and then
the bindings of upd applied left to right, as in the FileStorage update
methods (src/unnamed/part_002:74-87, 113-126, 176-189, 215-228). -/
def objMergeList (o : Obj) (upd : Obj) : Obj :=
  upd.foldl (fun acc kv => objSet acc kv.1 kv.2) o

/-- Optional-chained path access, u.a?.b?.c: descends through nested
objects, undefined as soon as a step is missing or not an object. -/
def objGetPath (o : Obj) : List String → Option Jval
  | [] => some (Jval.obj o)
  | [k] => objGet o k
  | k :: ks =>
    match objGet o k with
    | some (Jval.obj o2) => objGetPath o2 ks
    | _ => none

/-- JavaScript truthiness of a possibly-undefined value: undefined, null,
NaN, false, 0 and the empty string are falsy. -/
def jsTruthy : Option Jval → Bool
  | none => false
  | some Jval.null => false
  | some Jval.nan => false
  | some (Jval.bool b) => b
  | some (Jval.int n) => !(n = 0)
  | some (Jval.str s) => !(s = "")
  | some (Jval.obj _) => true

/-- Numeric reading of a stored value: integers are themselves; booleans and
null coerce as in JavaScript arithmetic; strings and objects are outside the
shapes the application stores in numeric fields and read as NaN (none). -/
def toNum : Option Jval → Option Int
  | some (Jval.int n) => some n
  | some (Jval.bool true) => some 1
  | some (Jval.bool false) => some 0
  | some Jval.null => some 0
  | _ => none

/-- NaN-propagating comparison a < b: false when either side is NaN. -/
def jsLt (a b : Option Int) : Bool :=
  match a, b with
  | some x, some y => x < y
  | _, _ => false

/-- NaN-propagating subtraction. -/
def jsSub (a b : Option Int) : Option Int :=
  match a, b with
  | some x, some y => some (x - y)
  | _, _ => none

/-- NaN-propagating addition. -/
def jsAdd (a b : Option Int) : Option Int :=
  match a, b with
  | some x, some y => some (x + y)
  | _, _ => none

/-- NaN-propagating multiplication. -/
def jsMul (a b : Option Int) : Option Int :=
  match a, b with
  | some x, some y => some (x * y)
  | _, _ => none

/-- NaN-propagating negation, for the literal -totalCost. -/
def jsNeg (a : Option Int) : Option Int :=
  match a with
  | some x => some (-x)
  | none => none

/-- A JavaScript number back into a stored value: NaN for none. -/
def jnumJval : Option Int → Jval
  | some n => Jval.int n
  | none => Jval.nan

/-- The idiom (x || 0) for a numeric-or-absent counter field: a nonzero
number is itself, 0, undefined, null and NaN give 0. -/
def jsNumOrZero (v : Option Jval) : Int :=
  match v with
  | some (Jval.int n) => n
  | _ => 0

/-- Date reading: new Date(x) over a stored epoch-millisecond integer;
none models an Invalid Date (NaN time value). -/
def toDateNum : Option Jval → Option Int
  | some (Jval.int n) => some n
  | _ => none

/-- Strict equality v === s between a stored value and a string literal. -/
def strictEqStr (v : Option Jval) (s : String) : Bool :=
  match v with
  | some (Jval.str t) => t = s
  | _ => false

/-- Template-literal rendering of a stored value, for the interpolation
of voucher and task fields into messages and descriptions. -/
def jsDisplay : Option Jval → String
  | none => "undefined"
  | some (Jval.str s) => s
  | some (Jval.int n) => toString n
  | some (Jval.bool true) => "true"
  | some (Jval.bool false) => "false"
  | some Jval.null => "null"
  | some Jval.nan => "NaN"
  | some (Jval.obj _) => "[object Object]"

/-- The document d with d._id === id, the match predicate used by every
findIndex and find over collections in the routes and FileStorage. -/
def idMatches (d : Obj) (id : String) : Bool :=
  strictEqStr (objGet d "_id") id

/-- FileStorage state: the JSON array held in each collection file that the
ledger claims touch (users.json, transactions.json, vouchers.json,
tasks.json). -/
structure FsState where
  users : List Obj
  transactions : List Obj
  vouchers : List Obj
  tasks : List Obj

/-- The shared shape of FileStorage.updateUser / updateTask / updateVoucher
(src/unnamed/part_002:74-87, 113-126, 215-228): find the first document with
the given _id, shallow-merge updateData over it, stamp updatedAt, and return
the updated document; when no document matches, the file is left unchanged
and null is returned. -/
def updateById (docs : List Obj) (id : String) (upd : Obj) (now : Int) :
    List Obj × Option Obj :=
  match docs with
  | [] => ([], none)
  | d :: rest =>
    if idMatches d id then
      let d2 := objSet (objMergeList d upd) "updatedAt" (Jval.int now)
      (d2 :: rest, some d2)
    else
      let r := updateById rest id upd now
      (d :: r.1, r.2)

/-- The shared shape of FileStorage.createUser / createTransaction / ...
(src/unnamed/part_002:129-140): append the object literal with a generated
_id first, the spread data, then createdAt and updatedAt stamps. -/
def createDoc (docs : List Obj) (data : Obj) (id : String) (now : Int) :
    List Obj × Obj :=
  let doc := objSet (objSet (objMergeList [("_id", Jval.str id)] data)
      "createdAt" (Jval.int now)) "updatedAt" (Jval.int now)
  (docs ++ [doc], doc)

/-- FileStorage.findUser query (src/unnamed/part_002:64-72); absent fields
are modelled by the empty string, which is falsy exactly like undefined in
the three truthiness guards of the source. -/
structure UserQuery where
  uid : String := ""
  email : String := ""
  username : String := ""

/-- FileStorage.findUser (src/unnamed/part_002:64-72). -/
def findUser (users : List Obj) (q : UserQuery) : Option Obj :=
  users.find? (fun u =>
    if q.uid ≠ "" then strictEqStr (objGet u "_id") q.uid
    else if q.email ≠ "" then strictEqStr (objGet u "email") q.email
    else if q.username ≠ "" then strictEqStr (objGet u "username") q.username
    else false)

/-- FileStorage.findTransactions query (src/unnamed/part_002:142-150);
the source filter reads only user, type and status — a category field set
by the transactions route is silently ignored, which the model mirrors by
carrying it without reading it. -/
structure TxQuery where
  user : String := ""
  type : String := ""
  category : String := ""
  status : String := ""

/-- The filter body of FileStorage.findTransactions (part_002:144-149). -/
def txMatches (q : TxQuery) (t : Obj) : Bool :=
  !(q.user ≠ "" && !strictEqStr (objGet t "user") q.user) &&
  !(q.type ≠ "" && !strictEqStr (objGet t "type") q.type) &&
  !(q.status ≠ "" && !strictEqStr (objGet t "status") q.status)

/-- FileStorage.findTransactions (src/unnamed/part_002:142-150). -/
def findTransactions (txs : List Obj) (q : TxQuery) : List Obj :=
  txs.filter (txMatches q)

/-- FileStorage.findTasks query (src/unnamed/part_002:103-111). -/
structure TaskQuery where
  user : String := ""
  status : String := ""
  type : String := ""

/-- The filter body of FileStorage.findTasks (part_002:105-110). -/
def taskMatches (q : TaskQuery) (t : Obj) : Bool :=
  !(q.user ≠ "" && !strictEqStr (objGet t "user") q.user) &&
  !(q.status ≠ "" && !strictEqStr (objGet t "status") q.status) &&
  !(q.type ≠ "" && !strictEqStr (objGet t "type") q.type)

/-- FileStorage.findTasks (src/unnamed/part_002:103-111). -/
def findTasks (tasks : List Obj) (q : TaskQuery) : List Obj :=
  tasks.filter (taskMatches q)

/-- FileStorage.findVouchers query (src/unnamed/part_002:205-213). -/
structure VoucherQuery where
  category : Option String := none
  maxCredits : Option Int := none
  featured : Option Bool := none

/-- Strict equality v === b against a boolean. -/
def strictEqBool (v : Option Jval) (b : Bool) : Bool :=
  match v with
  | some (Jval.bool c) => c = b
  | _ => false

/-- The filter body of FileStorage.findVouchers (part_002:207-212). -/
def voucherMatches (q : VoucherQuery) (v : Obj) : Bool :=
  !((match q.category with
     | some c => c ≠ "" && !strictEqStr (objGetPath v ["metadata", "category"]) c
     | none => false)) &&
  !((match q.maxCredits with
     | some m => m ≠ 0 && jsLt (some m) (toNum (objGetPath v ["cost", "credits"]))
     | none => false)) &&
  !((match q.featured with
     | some b => !strictEqBool (objGetPath v ["metadata", "featured"]) b
     | none => false))

/-- FileStorage.findVouchers (src/unnamed/part_002:205-213). -/
def findVouchers (vs : List Obj) (q : VoucherQuery) : List Obj :=
  vs.filter (voucherMatches q)

/-- Reading the credit balance of the stored user with the given id. -/
def userCredits (users : List Obj) (uid : String) : Option Jval :=
  (findUser users { uid := uid }).bind (fun u => objGet u "credits")

/-!
Mongoose model layer (src/models/User.js, src/models/Voucher.js and the
Task and Transaction schemas in src/unnamed/part_000).  These methods are
plain field mutations on single documents, so they are embedded as typed
records.
-/

/-- The fields of a mongoose User document that the credit methods touch
(src/models/User.js). -/
structure MUser where
  credits : Int
deriving DecidableEq

/-- userSchema.methods.addCredits (src/models/User.js:131-134). -/
def addCredits (u : MUser) (amount : Int) : MUser :=
  { u with credits := u.credits + amount }

/-- userSchema.methods.canAfford (src/models/User.js:137-139). -/
def canAfford (u : MUser) (cost : Int) : Bool :=
  u.credits ≥ cost

/-- userSchema.methods.deductCredits (src/models/User.js:142-148); none
models the thrown Insufficient credits error, which leaves the document
unsaved. -/
def deductCredits (u : MUser) (amount : Int) : Option MUser :=
  if canAfford u amount then some { u with credits := u.credits - amount }
  else none

/-- The fields of a mongoose Transaction document read by the post-save
hook (src/unnamed/part_000:212-342). -/
structure MTransaction where
  category : String
  amount : Int
  status : String
deriving DecidableEq

/-- transactionSchema.post save (src/unnamed/part_000:495-508): after a
save of a confirmed transaction, the owning user is credited for category
earning and debited the absolute amount for category spending; any other
category leaves the balance untouched.  The hook first looks the user up
by id and does nothing when the user is missing; the model takes the found
user.  none propagates the rejection thrown by deductCredits. -/
def postSaveCreditUpdate (t : MTransaction) (u : MUser) : Option MUser :=
  if t.status = "confirmed" then
    if t.category = "earning" then some (addCredits u t.amount)
    else if t.category = "spending" then deductCredits u t.amount.natAbs
    else some u
  else some u

/-- The fields of a ledger entry relevant to block numbering; the user tag
shows the counter is global, not per user (src/unnamed/part_000:212-342). -/
structure LedgerTx where
  user : String
  blockNumber : Nat
deriving DecidableEq

/-- The findOne with sort blockNumber descending used by
getNextBlockNumber: the entry carrying the largest block number, none on
an empty ledger. -/
def lastByBlockNumber (txs : List LedgerTx) : Option LedgerTx :=
  txs.foldl (fun acc t =>
    match acc with
    | none => some t
    | some m => if m.blockNumber < t.blockNumber then some t else some m) none

/-- transactionSchema.statics.getNextBlockNumber
(src/unnamed/part_000:374-377). -/
def getNextBlockNumber (txs : List LedgerTx) : Nat :=
  match lastByBlockNumber txs with
  | some last => last.blockNumber + 1
  | none => 1

/-- The block-number branch of the pre-save middleware
(src/unnamed/part_000:470-492) for a new transaction created with no
caller-supplied block number, followed by the persist: the next block
number is read and the entry appended to the ledger. -/
def saveNewTx (txs : List LedgerTx) (user : String) : List LedgerTx :=
  txs ++ [{ user := user, blockNumber := getNextBlockNumber txs }]

/-- A sequence of non-concurrent transaction creations, one per listed
user, starting from the given ledger. -/
def saveAllTx (txs : List LedgerTx) (users : List String) : List LedgerTx :=
  users.foldl saveNewTx txs

/-- The fields of a mongoose Task document touched by updateProgress
(src/unnamed/part_000:3-126). -/
structure MTask where
  current : Int
  target : Int
  status : String
  completedAt : Option Int
deriving DecidableEq

/-- taskSchema.methods.updateProgress (src/unnamed/part_000:145-154):
progress is clamped at the target, and reaching the target while active
flips the status to completed and stamps the completion time. -/
def updateProgress (t : MTask) (increment : Int) (now : Int) : MTask :=
  let c := min (t.current + increment) t.target
  if c ≥ t.target ∧ t.status = "active" then
    { t with current := c, status := "completed", completedAt := some now }
  else
    { t with current := c }

/-- The fields of a mongoose Voucher document read by the availability
logic (src/models/Voucher.js). -/
structure MVoucher where
  isActive : Bool
  endDate : Int
  total : Option Int
  used : Int
deriving DecidableEq

/-- voucherSchema virtual isExpired (src/models/Voucher.js:176-178). -/
def voucherIsExpired (v : MVoucher) (now : Int) : Bool :=
  v.endDate < now

/-- voucherSchema virtual isAvailable (src/models/Voucher.js:181-185):
active, not expired, and under the finite total cap when one is set. -/
def voucherIsAvailable (v : MVoucher) (now : Int) : Bool :=
  v.isActive && !voucherIsExpired v now &&
    (v.total = none || jsLt (some v.used) v.total)

/-- voucherSchema.methods.use (src/models/Voucher.js:223-228): the used
counter is incremented only when a finite total is set. -/
def voucherUse (v : MVoucher) : MVoucher :=
  if v.total ≠ none then { v with used := v.used + 1 } else v

/-!
SHA-256 (FIPS 180-4), the digest computed by crypto.createHash("sha256")
in transactionSchema.statics.generateHash (src/unnamed/part_000:361-371).
Words are natural numbers reduced modulo 2^32; the round and initial-hash
constants are derived from the fractional parts of the cube and square
roots of the first primes, as the standard defines them.
-/

/-- Reduction of a word modulo 2^32. -/
def w32 (n : Nat) : Nat := n % 4294967296

/-- Right rotation of a 32-bit word. -/
def rotr (k x : Nat) : Nat := w32 ((x >>> k) ||| (x <<< (32 - k)))

/-- The big Sigma-0 function of the compression loop. -/
def bigSigma0 (x : Nat) : Nat := rotr 2 x ^^^ rotr 13 x ^^^ rotr 22 x

/-- The big Sigma-1 function of the compression loop. -/
def bigSigma1 (x : Nat) : Nat := rotr 6 x ^^^ rotr 11 x ^^^ rotr 25 x

/-- The small sigma-0 function of the message schedule. -/
def smallSigma0 (x : Nat) : Nat := rotr 7 x ^^^ rotr 18 x ^^^ (x >>> 3)

/-- The small sigma-1 function of the message schedule. -/
def smallSigma1 (x : Nat) : Nat := rotr 17 x ^^^ rotr 19 x ^^^ (x >>> 10)

/-- The choice function Ch, with complement taken inside 32 bits. -/
def chF (x y z : Nat) : Nat := (x &&& y) ^^^ ((x ^^^ 4294967295) &&& z)

/-- The majority function Maj. -/
def majF (x y z : Nat) : Nat := (x &&& y) ^^^ (x &&& z) ^^^ (y &&& z)

/-- The first 64 primes, whose roots seed the SHA-256 constants. -/
def firstPrimes64 : List Nat :=
  [2, 3, 5, 7, 11, 13, 17, 19, 23, 29, 31, 37, 41, 43, 47, 53, 59, 61,
   67, 71, 73, 79, 83, 89, 97, 101, 103, 107, 109, 113, 127, 131, 137,
   139, 149, 151, 157, 163, 167, 173, 179, 181, 191, 193, 197, 199, 211,
   223, 227, 229, 233, 239, 241, 251, 257, 263, 269, 271, 277, 281, 283,
   293, 307, 311]

/-- Integer cube root by binary search over 40 bits, enough for the
arguments used to derive the round constants. -/
def icbrt (n : Nat) : Nat :=
  (List.range 40).foldl (fun acc i =>
    let c := acc + 2 ^ (39 - i)
    if c ^ 3 ≤ n then c else acc) 0

/-- The 64 round constants: the first 32 bits of the fractional parts of
the cube roots of the first 64 primes. -/
def sha256K : List Nat := firstPrimes64.map (fun p => icbrt (p * 2 ^ 96) % 2 ^ 32)

/-- Integer square root by binary search over 40 bits, enough for the
arguments used to derive the initial hash value. -/
def isqrt (n : Nat) : Nat :=
  (List.range 40).foldl (fun acc i =>
    let c := acc + 2 ^ (39 - i)
    if c ^ 2 ≤ n then c else acc) 0

/-- The initial hash value: the first 32 bits of the fractional parts of
the square roots of the first 8 primes. -/
def sha256H0 : List Nat := (firstPrimes64.take 8).map (fun p => isqrt (p * 2 ^ 64) % 2 ^ 32)

/-- Big-endian byte rendering of a number on the given number of bytes. -/
def beBytes (count : Nat) (n : Nat) : List Nat :=
  (List.range count).map (fun i => (n >>> (8 * (count - 1 - i))) % 256)

/-- Message padding: a 0x80 byte, zeros to 56 mod 64, and the bit length
on 8 big-endian bytes. -/
def padMessage (msg : List Nat) : List Nat :=
  let len := msg.length
  let r := (len + 1) % 64
  let k := if r ≤ 56 then 56 - r else 120 - r
  msg ++ [128] ++ List.replicate k 0 ++ beBytes 8 (len * 8)

/-- A 64-byte block read as 16 big-endian 32-bit words. -/
def toWords (block : List Nat) : List Nat :=
  (List.range 16).map (fun i =>
    (block.getD (4 * i) 0) <<< 24 ||| (block.getD (4 * i + 1) 0) <<< 16 |||
    (block.getD (4 * i + 2) 0) <<< 8 ||| block.getD (4 * i + 3) 0)

/-- The message-schedule recurrence, carrying the sliding window of the
last 16 words in chronological order and emitting the next count words. -/
def schedAux : Nat → List Nat → List Nat
  | 0, _ => []
  | n + 1, window =>
    let next := w32 (smallSigma1 (window.getD 14 0) + window.getD 9 0 +
                     smallSigma0 (window.getD 1 0) + window.getD 0 0)
    next :: schedAux n (window.drop 1 ++ [next])

/-- The message schedule: the 16 block words extended to 64. -/
def schedule (w16 : List Nat) : List Nat :=
  w16 ++ schedAux 48 w16

/-- One round of the compression function on the eight working words; kw
is the already-summed round constant plus schedule word. -/
def sha256Round (st : List Nat) (kw : Nat) : List Nat :=
  match st with
  | [a, b, c, d, e, f, g, h] =>
    let t1 := w32 (h + bigSigma1 e + chF e f g + kw)
    let t2 := w32 (bigSigma0 a + majF a b c)
    [w32 (t1 + t2), a, b, c, w32 (d + t1), e, f, g]
  | other => other

/-- Compression of a single 64-byte block into the running hash. -/
def compressBlock (h : List Nat) (block : List Nat) : List Nat :=
  let kws := List.zipWith (fun k w => w32 (k + w)) sha256K (schedule (toWords block))
  let st := kws.foldl sha256Round h
  List.zipWith (fun x y => w32 (x + y)) h st

/-- A byte list split into 64-byte blocks; structural recursion on a fuel
bounded by the length, so each step consumes a nonempty prefix. -/
def chunksAux : Nat → List Nat → List (List Nat)
  | 0, _ => []
  | _, [] => []
  | fuel + 1, x :: rest => ((x :: rest).take 64) :: chunksAux fuel ((x :: rest).drop 64)

/-- A byte list split into 64-byte blocks. -/
def chunks64 (l : List Nat) : List (List Nat) :=
  chunksAux l.length l

/-- The SHA-256 digest of a byte sequence, as 32 bytes. -/
def sha256Bytes (msg : List Nat) : List Nat :=
  (((chunks64 (padMessage msg)).foldl compressBlock sha256H0).map (beBytes 4)).flatten

/-- A nibble as a lowercase hex character. -/
def hexDigit (n : Nat) : Char := "0123456789abcdef".data.getD n 'x'

/-- The digest in hex, as crypto digest("hex") returns it. -/
def sha256Hex (msg : List Nat) : String :=
  String.mk (((sha256Bytes msg).map (fun b => [hexDigit (b / 16), hexDigit (b % 16)])).flatten)

/-- The bytes of an ASCII string; every character serialized by
generateHash (hex ids, enum names, decimal numbers, JSON punctuation) is
ASCII, where UTF-8 bytes coincide with code points. -/
def strBytes (s : String) : List Nat := s.data.map Char.toNat

/-- JSON.stringify of the object literal built in generateHash
(src/unnamed/part_000:362-368): keys in insertion order, user and type as
JSON strings, the three numbers by their JavaScript renderings, which the
caller passes already rendered. -/
def jsonTupleString (user ty amount timestamp nonce : String) : String :=
  "\x7b\x22user\x22:\x22" ++ user ++ "\x22,\x22type\x22:\x22" ++ ty ++
  "\x22,\x22amount\x22:" ++ amount ++ ",\x22timestamp\x22:" ++ timestamp ++
  ",\x22nonce\x22:" ++ nonce ++ "\x7d"

/-- transactionSchema.statics.generateHash (src/unnamed/part_000:361-371).
The fallbacks data.timestamp or Date.now() and data.nonce or Math.random()
follow JavaScript truthiness: a missing or zero field is replaced by the
environment value, whose rendering is passed as nowRender or randRender
(Math.random() yields a float in [0,1) such as 0.5).  A caller-supplied
numeric timestamp and nonce render as decimal integers. -/
def generateHash (user ty : String) (amount : Int) (timestamp nonce : Option Int)
    (nowRender randRender : String) : String :=
  let ts := match timestamp with
    | some t => if t ≠ 0 then toString t else nowRender
    | none => nowRender
  let nc := match nonce with
    | some n => if n ≠ 0 then toString n else randRender
    | none => randRender
  sha256Hex (strBytes (jsonTupleString user ty (toString amount) ts nc))

/-!
Route handlers over FileStorage (src/routes/transactions.js,
src/unnamed/part_006 tasks router, src/unnamed/part_007 rewards router).
Each handler is modelled from after its express-validator preamble; the
generated document id and the current time are explicit arguments.
-/

/-- Array.prototype.slice(s, e) for nonnegative indices. -/
def jsSlice (l : List α) (s e : Nat) : List α := (l.take e).drop s

/-- The pagination metadata object returned by the list routes. -/
structure Pagination where
  total : Nat
  limit : Nat
  offset : Nat
  hasMore : Bool
deriving DecidableEq

/-- The shared pagination tail of the list routes
(src/routes/transactions.js:85-101): total, slice from offset to
offset + limit, and hasMore when the end index is below the total. -/
def paginate (l : List α) (limit offset : Nat) : List α × Pagination :=
  let total := l.length
  let startIndex := offset
  let endIndex := startIndex + limit
  (jsSlice l startIndex endIndex,
   { total := total, limit := limit, offset := offset,
     hasMore := decide (endIndex < total) })

/-- The comparator key of sort((a, b) => new Date(b.createdAt) - new
Date(a.createdAt)): the createdAt time value, 0 for an unreadable date. -/
def createdAtKey (t : Obj) : Int := (toDateNum (objGet t "createdAt")).getD 0

/-- Newest-first sort of the list routes; a stable merge sort, as
ECMAScript 2019 requires Array.prototype.sort to be stable. -/
def sortByCreatedAtDesc (l : List Obj) : List Obj :=
  l.mergeSort (fun a b => createdAtKey b ≤ createdAtKey a)

/-- The date-range filter of GET /api/transactions
(src/routes/transactions.js:73-80). -/
def txInDateRange (startDate endDate : Option Int) (t : Obj) : Bool :=
  !(startDate.isSome && jsLt (toDateNum (objGet t "createdAt")) startDate) &&
  !(endDate.isSome && jsLt endDate (toDateNum (objGet t "createdAt")))

/-- GET /api/transactions (src/routes/transactions.js:41-112), after
validation: the query is built with the authenticated user id and the
optional type, category and status filters (absent filters are the empty
string, falsy like undefined); FileStorage.findTransactions, the optional
date-range filter, the newest-first sort and pagination follow the source
line by line.  The category entry is carried in the query although the
FileStorage filter never reads it. -/
def getTransactionsHandler (st : FsState) (userId : String)
    (ty cat status : String) (limit offset : Nat)
    (startDate endDate : Option Int) : List Obj × Pagination :=
  let q : TxQuery := { user := userId, type := ty, category := cat, status := status }
  let txs := findTransactions st.transactions q
  let txs := if startDate.isSome || endDate.isSome then
      txs.filter (txInDateRange startDate endDate)
    else txs
  let txs := sortByCreatedAtDesc txs
  paginate txs limit offset

/-- The HTTP outcome of POST /api/rewards/redeem: an error response with
status code and message, or the success payload with the updated voucher,
the transaction amount and the new balance. -/
inductive RedeemResult where
  | err (code : Nat) (message : String)
  | ok (voucher : Option Obj) (amount : Option Int) (newBalance : Option Int)

/-- Whether a redeem outcome is the success response. -/
def RedeemResult.isOk : RedeemResult → Bool
  | RedeemResult.ok _ _ _ => true
  | RedeemResult.err _ _ => false

/-- POST /api/rewards/redeem (src/unnamed/part_007:129-251), after
validation: look up the user and the voucher, check the active flag, the
validity window, the per-user cap and the balance in the order of the
source, each failure with its own message and the state untouched; on
success deduct the credits, append the spending transaction and update the
voucher under the literal dotted key usage.limit.used, in that order. -/
def redeemHandler (st : FsState) (userId voucherId : String) (quantity : Int)
    (now : Int) (txId : String) : RedeemResult × FsState :=
  match findUser st.users { uid := userId } with
  | none => (RedeemResult.err 404 "User not found", st)
  | some user =>
    match (findVouchers st.vouchers {}).find? (fun v => idMatches v voucherId) with
    | none => (RedeemResult.err 404 "Voucher not found", st)
    | some voucher =>
      if !jsTruthy (objGetPath voucher ["validity", "isActive"]) then
        (RedeemResult.err 400 "Voucher is not active", st)
      else
        let startDate := toDateNum (objGetPath voucher ["validity", "startDate"])
        let endDate := toDateNum (objGetPath voucher ["validity", "endDate"])
        if jsLt (some now) startDate || jsLt endDate (some now) then
          (RedeemResult.err 400 "Voucher is expired or not yet active", st)
        else
          let perUser := objGetPath voucher ["usage", "limit", "perUser"]
          if jsTruthy perUser && jsLt (toNum perUser) (some quantity) then
            (RedeemResult.err 400
              ("Maximum " ++ jsDisplay perUser ++ " vouchers per user allowed"), st)
          else
            let totalCost := jsMul (toNum (objGetPath voucher ["cost", "credits"]))
                (some quantity)
            if jsLt (toNum (objGet user "credits")) totalCost then
              (RedeemResult.err 400 "Insufficient credits", st)
            else
              let newCredits := jsSub (toNum (objGet user "credits")) totalCost
              let users2 := (updateById st.users userId
                  [("credits", jnumJval newCredits)] now).1
              let txs2 := (createDoc st.transactions
                  [("user", Jval.str userId),
                   ("type", Jval.str "voucher_redemption"),
                   ("category", Jval.str "spending"),
                   ("amount", jnumJval (jsNeg totalCost)),
                   ("description", Jval.str ("Redeemed " ++ toString quantity ++
                       "x " ++ jsDisplay (objGet voucher "name"))),
                   ("metadata", Jval.obj
                     [("voucherId", (objGet voucher "_id").getD Jval.null),
                      ("voucherName", (objGet voucher "name").getD Jval.null),
                      ("quantity", Jval.int quantity),
                      ("unitCost", (objGetPath voucher ["cost", "credits"]).getD Jval.null)]),
                   ("status", Jval.str "completed")] txId now).1
              let vres := updateById st.vouchers voucherId
                  [("usage.limit.used",
                    Jval.int (jsNumOrZero (objGetPath voucher ["usage", "limit", "used"]) +
                      quantity))] now
              (RedeemResult.ok vres.2 (jsNeg totalCost) newCredits,
               { st with users := users2, transactions := txs2, vouchers := vres.1 })

/-- The HTTP outcome of PUT /api/tasks/:id: an error response, or success
with the updated task. -/
inductive PutTaskResult where
  | err (code : Nat) (message : String)
  | ok (task : Option Obj)

/-- The spread of user.stats in the tasks route: the fields of a stored
stats object, nothing for an absent or non-object value. -/
def statsFields (u : Obj) : Obj :=
  match objGet u "stats" with
  | some (Jval.obj fields) => fields
  | _ => []

/-- PUT /api/tasks/:id (src/unnamed/part_006:153-241), after validation:
find the task among the tasks of the authenticated user, apply the partial
update, and when the request sets status completed on a task that was not
already completed, credit the reward to the user, append an earning
transaction and bump the tasksCompleted stat, in the order of the source.
status and notes are absent as the empty string (falsy like undefined);
progress is checked against undefined, so an explicit 0 is applied. -/
def putTaskHandler (st : FsState) (userId taskId : String)
    (status : String) (progress : Option Int) (notes : String)
    (now : Int) (txId : String) : PutTaskResult × FsState :=
  let tasks := findTasks st.tasks { user := userId }
  match tasks.find? (fun t => idMatches t taskId) with
  | none => (PutTaskResult.err 404 "Task not found", st)
  | some task =>
    let updateData : Obj :=
      (if status ≠ "" then [("status", Jval.str status)] else []) ++
      (match progress with
       | some p => [("progress", Jval.int p)]
       | none => []) ++
      (if notes ≠ "" then [("notes", Jval.str notes)] else [])
    let tres := updateById st.tasks taskId updateData now
    if status = "completed" && !strictEqStr (objGet task "status") "completed" then
      match findUser st.users { uid := userId } with
      | some user =>
        let newCredits := jsAdd (toNum (objGet user "credits"))
            (toNum (objGet task "credits"))
        let users1 := (updateById st.users userId
            [("credits", jnumJval newCredits)] now).1
        let txs1 := (createDoc st.transactions
            [("user", Jval.str userId),
             ("type", Jval.str "task_completion"),
             ("category", Jval.str "earning"),
             ("amount", (objGet task "credits").getD Jval.null),
             ("description", Jval.str ("Completed task: " ++
                 jsDisplay (objGet task "title"))),
             ("metadata", Jval.obj
               [("taskId", (objGet task "_id").getD Jval.null),
                ("taskTitle", (objGet task "title").getD Jval.null),
                ("taskType", (objGet task "type").getD Jval.null)]),
             ("status", Jval.str "completed")] txId now).1
        let newStats := objMergeList (statsFields user)
            [("tasksCompleted",
              Jval.int (jsNumOrZero (objGetPath user ["stats", "tasksCompleted"]) + 1))]
        let users2 := (updateById users1 userId
            [("stats", Jval.obj newStats)] now).1
        (PutTaskResult.ok tres.2,
         { st with tasks := tres.1, users := users2, transactions := txs1 })
      | none => (PutTaskResult.ok tres.2, { st with tasks := tres.1 })
    else
      (PutTaskResult.ok tres.2, { st with tasks := tres.1 })

/-- The status of the stored task of the given user with the given id, as
the tasks route reads it back. -/
def storedTaskStatus (st : FsState) (userId taskId : String) : Option Jval :=
  ((findTasks st.tasks { user := userId }).find? (fun t => idMatches t taskId)).bind
    (fun t => objGet t "status")

/-- The new-balance field of the redeem response payload. -/
def RedeemResult.balance : RedeemResult → Option Int
  | RedeemResult.ok _ _ nb => nb
  | RedeemResult.err _ _ => none

/-- The stored voucher with the given id, as the rewards route reads it. -/
def storedVoucher (st : FsState) (vid : String) : Option Obj :=
  st.vouchers.find? (fun v => idMatches v vid)

/-- Test fixture: a user document with 200 credits. -/
def userFixture : Obj := [("_id", Jval.str "u1"), ("credits", Jval.int 200)]

/-- Test fixture: an active in-window voucher costing 50 credits whose
finite total cap is already reached (total 1, used 1). -/
def capVoucher : Obj :=
  [("_id", Jval.str "v1"), ("name", Jval.str "Cap Voucher"),
   ("validity", Jval.obj
     [("isActive", Jval.bool true), ("startDate", Jval.int 0),
      ("endDate", Jval.int 2000000000000)]),
   ("cost", Jval.obj [("credits", Jval.int 50)]),
   ("usage", Jval.obj
     [("limit", Jval.obj
       [("total", Jval.int 1), ("perUser", Jval.int 5), ("used", Jval.int 1)])])]

/-- Test fixture: the storage state holding the at-cap voucher. -/
def capState : FsState :=
  { users := [userFixture], transactions := [], vouchers := [capVoucher], tasks := [] }

/-- Test fixture: an active in-window voucher costing 150 credits with
used 0 under a total of 10. -/
def freshVoucher : Obj :=
  [("_id", Jval.str "v2"), ("name", Jval.str "Fresh Voucher"),
   ("validity", Jval.obj
     [("isActive", Jval.bool true), ("startDate", Jval.int 0),
      ("endDate", Jval.int 2000000000000)]),
   ("cost", Jval.obj [("credits", Jval.int 150)]),
   ("usage", Jval.obj
     [("limit", Jval.obj
       [("total", Jval.int 10), ("perUser", Jval.int 5), ("used", Jval.int 0)])])]

/-- Test fixture: the storage state holding the fresh voucher. -/
def freshState : FsState :=
  { users := [userFixture], transactions := [], vouchers := [freshVoucher], tasks := [] }

/-- Test fixture: an inactive voucher. -/
def inactiveVoucher : Obj :=
  [("_id", Jval.str "v3"), ("name", Jval.str "Inactive Voucher"),
   ("validity", Jval.obj
     [("isActive", Jval.bool false), ("startDate", Jval.int 0),
      ("endDate", Jval.int 2000000000000)]),
   ("cost", Jval.obj [("credits", Jval.int 10)])]

/-- Test fixture: an active voucher whose validity window is already over
at time 1000. -/
def expiredVoucher : Obj :=
  [("_id", Jval.str "v4"), ("name", Jval.str "Expired Voucher"),
   ("validity", Jval.obj
     [("isActive", Jval.bool true), ("startDate", Jval.int 0),
      ("endDate", Jval.int 500)]),
   ("cost", Jval.obj [("credits", Jval.int 10)])]

/-- Test fixture: a state with the user and no vouchers. -/
def noVoucherState : FsState :=
  { users := [userFixture], transactions := [], vouchers := [], tasks := [] }

/-- Test fixture: a state holding the inactive and the expired voucher. -/
def inactiveState : FsState :=
  { users := [userFixture], transactions := [],
    vouchers := [inactiveVoucher, expiredVoucher], tasks := [] }

/-- Test fixture: a task of the fixture user worth 50 credits, not yet
completed. -/
def taskFixture : Obj :=
  [("_id", Jval.str "t1"), ("user", Jval.str "u1"),
   ("title", Jval.str "Recycle Challenge"), ("type", Jval.str "daily"),
   ("credits", Jval.int 50), ("status", Jval.str "in_progress"),
   ("progress", Jval.int 40)]

/-- Test fixture: the same task already completed. -/
def doneTaskFixture : Obj :=
  [("_id", Jval.str "t1"), ("user", Jval.str "u1"),
   ("title", Jval.str "Recycle Challenge"), ("type", Jval.str "daily"),
   ("credits", Jval.int 50), ("status", Jval.str "completed"),
   ("progress", Jval.int 100)]

/-- Test fixture: the state holding the open task. -/
def taskState : FsState :=
  { users := [userFixture], transactions := [], vouchers := [], tasks := [taskFixture] }

/-- Test fixture: the state holding the completed task. -/
def doneTaskState : FsState :=
  { users := [userFixture], transactions := [], vouchers := [], tasks := [doneTaskFixture] }

/-- Test fixture: a stored transaction of the fixture user. -/
def txFixture : Obj :=
  [("_id", Jval.str "tx1"), ("user", Jval.str "u1"), ("type", Jval.str "earning"),
   ("category", Jval.str "earning"), ("status", Jval.str "completed"),
   ("amount", Jval.int 10), ("createdAt", Jval.int 500)]

/-- Test fixture: the state holding that single transaction. -/
def txState : FsState :=
  { users := [userFixture], transactions := [txFixture], vouchers := [], tasks := [] }

/-!
General lemmas about the document operations, shared by the claims below.
-/

theorem objGet_objSet_self (o : Obj) (k : String) (v : Jval) :
    objGet (objSet o k v) k = some v := by
  induction o with
  | nil => simp [objSet, objGet]
  | cons hd tl ih =>
    by_cases h : hd.1 = k
    · simp [objSet, objGet, h]
    · simp [objSet, objGet, h, ih]

theorem objGet_objSet_ne (o : Obj) (k k2 : String) (v : Jval) (h : k2 ≠ k) :
    objGet (objSet o k v) k2 = objGet o k2 := by
  induction o with
  | nil => simp [objSet, objGet, Ne.symm h]
  | cons hd tl ih =>
    by_cases hk : hd.1 = k
    · subst hk
      simp [objSet, objGet, Ne.symm h]
    · simp only [objSet, if_neg hk, objGet]
      by_cases hk2 : hd.1 = k2
      · simp [hk2]
      · simp [hk2, ih]

theorem findVouchers_noQuery (vs : List Obj) : findVouchers vs {} = vs := by
  induction vs with
  | nil => rfl
  | cons v rest ih =>
    simp only [findVouchers] at ih
    simp [findVouchers, List.filter, voucherMatches, ih]

theorem findUser_eq_find? (users : List Obj) (uid : String) (h : uid ≠ "") :
    findUser users { uid := uid } = users.find? (fun u => idMatches u uid) := by
  unfold findUser
  congr 1
  funext u
  simp [h, idMatches]

theorem updateById_snd (docs : List Obj) (id : String) (upd : Obj) (now : Int)
    (d : Obj) (h : docs.find? (fun x => idMatches x id) = some d) :
    (updateById docs id upd now).2 =
      some (objSet (objMergeList d upd) "updatedAt" (Jval.int now)) := by
  induction docs with
  | nil => simp [List.find?] at h
  | cons d0 rest ih =>
    by_cases h0 : idMatches d0 id
    · simp only [List.find?, h0] at h
      cases h
      simp [updateById, h0]
    · simp only [List.find?, h0] at h
      simp [updateById, h0, ih h]

theorem updateById_fst_find? (docs : List Obj) (id : String) (upd : Obj) (now : Int)
    (d : Obj) (h : docs.find? (fun x => idMatches x id) = some d)
    (hkeep : idMatches (objSet (objMergeList d upd) "updatedAt" (Jval.int now)) id = true) :
    ((updateById docs id upd now).1).find? (fun x => idMatches x id) =
      some (objSet (objMergeList d upd) "updatedAt" (Jval.int now)) := by
  induction docs with
  | nil => simp [List.find?] at h
  | cons d0 rest ih =>
    by_cases h0 : idMatches d0 id
    · simp only [List.find?, h0] at h
      cases h
      simp [updateById, h0, List.find?, hkeep]
    · simp only [List.find?, h0] at h
      simp only [updateById, h0, if_false, Bool.false_eq_true]
      simp only [List.find?, h0]
      exact ih h

theorem strictEqStr_eq {v : Option Jval} {s : String} (h : strictEqStr v s = true) :
    v = some (Jval.str s) := by
  cases v with
  | none => simp [strictEqStr] at h
  | some j => cases j <;> simp_all [strictEqStr]

theorem objGet_merge_not_mem (d : Obj) (ks : Obj) (key : String)
    (h : ∀ kv ∈ ks, kv.1 ≠ key) :
    objGet (objMergeList d ks) key = objGet d key := by
  induction ks generalizing d with
  | nil => rfl
  | cons kv rest ih =>
    have hkv : kv.1 ≠ key := h kv (by simp)
    have hrest : ∀ kv2 ∈ rest, kv2.1 ≠ key := fun kv2 hm => h kv2 (by simp [hm])
    show objGet (objMergeList (objSet d kv.1 kv.2) rest) key = objGet d key
    rw [ih (objSet d kv.1 kv.2) hrest, objGet_objSet_ne _ _ _ _ (Ne.symm hkv)]

theorem objGet_update_merged_ne (d : Obj) (ks : Obj) (now : Int) (key : String)
    (h : ∀ kv ∈ ks, kv.1 ≠ key) (hupd : key ≠ "updatedAt") :
    objGet (objSet (objMergeList d ks) "updatedAt" (Jval.int now)) key = objGet d key := by
  rw [objGet_objSet_ne _ _ _ _ hupd, objGet_merge_not_mem d ks key h]

theorem objGet_update_merged_single (d : Obj) (k : String) (x : Jval) (now : Int)
    (h : k ≠ "updatedAt") :
    objGet (objSet (objMergeList d [(k, x)]) "updatedAt" (Jval.int now)) k = some x := by
  show objGet (objSet (objMergeList (objSet d k x) []) "updatedAt" (Jval.int now)) k = some x
  rw [objGet_objSet_ne _ _ _ _ h]
  exact objGet_objSet_self _ _ _

theorem find?_filter_updateById (docs : List Obj) (id : String) (upd : Obj) (now : Int)
    (d : Obj) (q : Obj → Bool) (h : docs.find? (fun x => idMatches x id) = some d)
    (hkeep : idMatches (objSet (objMergeList d upd) "updatedAt" (Jval.int now)) id = true)
    (hq : q (objSet (objMergeList d upd) "updatedAt" (Jval.int now)) = true) :
    (((updateById docs id upd now).1).filter q).find? (fun x => idMatches x id) =
      some (objSet (objMergeList d upd) "updatedAt" (Jval.int now)) := by
  induction docs with
  | nil => simp [List.find?] at h
  | cons d0 rest ih =>
    by_cases h0 : idMatches d0 id
    · simp only [List.find?, h0] at h
      cases h
      simp [updateById, h0, List.filter, hq, List.find?, hkeep]
    · simp only [List.find?, h0] at h
      simp only [updateById, h0, if_false, Bool.false_eq_true, List.filter]
      by_cases hq0 : q d0
      · simp only [hq0, List.find?, h0]
        exact ih h
      · simp only [hq0, Bool.false_eq_true, if_false]
        exact ih h

/-- C1 counterexample: a confirmed transaction of category bonus with
amount 50 leaves a zero balance at zero; the claim as stated demands the
balance rise by the amount. -/
theorem claim_C1_counterexample :
    (postSaveCreditUpdate ⟨"bonus", 50, "confirmed"⟩ ⟨0⟩).map MUser.credits = some 0 ∧
    ¬ ((postSaveCreditUpdate ⟨"bonus", 50, "confirmed"⟩ ⟨0⟩).map MUser.credits =
        some ((0 : Int) + 50)) := by
  constructor
  · rfl
  · decide

/-- C1 (amended): for a transaction persisted with status confirmed, the
post-save hook adds amount to the balance only for category earning and
subtracts the absolute amount only for category spending (when the user
can afford it); categories bonus and penalty leave the balance unchanged. -/
theorem claim_C1_balance_effect (t : MTransaction) (u : MUser)
    (hst : t.status = "confirmed") :
    (t.category = "earning" →
      (postSaveCreditUpdate t u).map MUser.credits = some (u.credits + t.amount)) ∧
    (t.category = "spending" → (t.amount.natAbs : Int) ≤ u.credits →
      (postSaveCreditUpdate t u).map MUser.credits =
        some (u.credits - (t.amount.natAbs : Int))) ∧
    (t.category = "bonus" ∨ t.category = "penalty" →
      (postSaveCreditUpdate t u).map MUser.credits = some u.credits) := by
  refine ⟨fun hc => ?_, fun hc hle => ?_, fun hc => ?_⟩
  · simp [postSaveCreditUpdate, hst, hc, addCredits]
  · simp [postSaveCreditUpdate, hst, hc, deductCredits, canAfford, hle]
    rwa [Int.abs_eq_natAbs]
  · rcases hc with hc | hc <;> simp [postSaveCreditUpdate, hst, hc]

/-- C1 witness: the amended statement evaluated at a user with 100
credits and one transaction of each category. -/
theorem claim_C1_balance_effect_witness :
    (postSaveCreditUpdate ⟨"earning", 30, "confirmed"⟩ ⟨100⟩).map MUser.credits =
      some ((100 : Int) + 30) ∧
    (postSaveCreditUpdate ⟨"spending", -40, "confirmed"⟩ ⟨100⟩).map MUser.credits =
      some ((100 : Int) - ((Int.natAbs (-40) : Nat) : Int)) ∧
    (postSaveCreditUpdate ⟨"bonus", 25, "confirmed"⟩ ⟨100⟩).map MUser.credits =
      some 100 :=
  ⟨(claim_C1_balance_effect ⟨"earning", 30, "confirmed"⟩ ⟨100⟩ rfl).1 rfl,
   (claim_C1_balance_effect ⟨"spending", -40, "confirmed"⟩ ⟨100⟩ rfl).2.1 rfl (by decide),
   (claim_C1_balance_effect ⟨"bonus", 25, "confirmed"⟩ ⟨100⟩ rfl).2.2 (Or.inl rfl)⟩

theorem lastByBlockNumber_append (txs : List LedgerTx) (t : LedgerTx) :
    lastByBlockNumber (txs ++ [t]) =
      match lastByBlockNumber txs with
      | none => some t
      | some m => if m.blockNumber < t.blockNumber then some t else some m := by
  simp [lastByBlockNumber, List.foldl_append]

theorem saveAllTx_blocks (us : List String) : ∀ (txs : List LedgerTx) (n : Nat),
    txs.map LedgerTx.blockNumber = List.range' 1 n →
    (lastByBlockNumber txs).map LedgerTx.blockNumber =
      (if n = 0 then none else some n) →
    (saveAllTx txs us).map LedgerTx.blockNumber = List.range' 1 (n + us.length) := by
  induction us with
  | nil => intro txs n h1 _; simpa using h1
  | cons u rest ih =>
    intro txs n h1 h2
    have hnext : getNextBlockNumber txs = n + 1 := by
      unfold getNextBlockNumber
      rcases hlast : lastByBlockNumber txs with _ | m
      · rw [hlast] at h2
        by_cases hn : n = 0
        · simp [hn]
        · simp [hn] at h2
      · rw [hlast] at h2
        by_cases hn : n = 0
        · simp [hn] at h2
        · simp [hn] at h2
          simp [h2]
    have hstep : saveAllTx txs (u :: rest) =
        saveAllTx (txs ++ [LedgerTx.mk u (n + 1)]) rest := by
      simp [saveAllTx, saveNewTx, hnext]
    rw [hstep]
    have h1' : (txs ++ [LedgerTx.mk u (n + 1)]).map LedgerTx.blockNumber =
        List.range' 1 (n + 1) := by
      rw [List.map_append, h1, List.range'_concat 1 n]
      simp [Nat.add_comm]
    have h2' : (lastByBlockNumber (txs ++ [LedgerTx.mk u (n + 1)])).map
        LedgerTx.blockNumber = (if n + 1 = 0 then none else some (n + 1)) := by
      rw [lastByBlockNumber_append]
      rcases hlast : lastByBlockNumber txs with _ | m
      · simp
      · rw [hlast] at h2
        by_cases hn : n = 0
        · simp [hn] at h2
        · simp [hn] at h2
          have hlt : m.blockNumber < n + 1 := by omega
          simp [hlt]
    have hres := ih (txs ++ [LedgerTx.mk u (n + 1)]) (n + 1) h1' h2'
    rw [hres]
    congr 1
    simp
    omega

/-- C5: starting from an empty ledger, a sequence of non-concurrent
transaction creations with no caller-supplied block numbers is assigned
the block numbers 1, 2, 3, ... in order — each creation gets exactly the
previous number plus one, and the counter is global: it does not depend
on which user each transaction belongs to. -/
theorem claim_C5_block_numbers (users : List String) :
    (saveAllTx [] users).map LedgerTx.blockNumber = List.range' 1 users.length := by
  have := saveAllTx_blocks users [] 0 rfl rfl
  simpa using this

/-- C4 counterexample: with the caller-supplied nonce 0 — a value the
claim quantifies over, and the schema default — the expression data.nonce
or Math.random() discards the nonce because 0 is falsy, so two calls with
the identical input tuple but different Math.random() draws (here 0.5 and
0.25) produce different digests. -/
theorem claim_C4_counterexample :
    generateHash "64f0a1b2c3d4e5f6a7b8c9d0" "task_completion" 25
        (some 1700000000000) (some 0) "1700000000111" "0.5" ≠
      generateHash "64f0a1b2c3d4e5f6a7b8c9d0" "task_completion" 25
        (some 1700000000000) (some 0) "1700000000111" "0.25" := by
  decide

/-- C4 (amended): for every truthy (nonzero) caller-supplied nonce and
nonzero timestamp the digest is reproducible — it does not depend on the
clock or the random draw; and at concrete inputs, changing the nonce or
the timestamp changes the digest.  A zero or missing nonce is replaced by
Math.random(), so reproducibility fails there (see the counterexample). -/
theorem claim_C4_hash_determinism :
    (∀ (user ty : String) (amount t n : Int) (now1 rand1 now2 rand2 : String),
      t ≠ 0 → n ≠ 0 →
      generateHash user ty amount (some t) (some n) now1 rand1 =
        generateHash user ty amount (some t) (some n) now2 rand2) ∧
    generateHash "u1" "transfer" 5 (some 1700000000000) (some 1) "na" "ra" ≠
      generateHash "u1" "transfer" 5 (some 1700000000000) (some 2) "na" "ra" ∧
    generateHash "u1" "transfer" 5 (some 1700000000000) (some 1) "na" "ra" ≠
      generateHash "u1" "transfer" 5 (some 1700000000001) (some 1) "na" "ra" := by
  refine ⟨?_, by decide, by decide⟩
  intro user ty amount t n now1 rand1 now2 rand2 ht hn
  simp [generateHash, ht, hn]

/-- C4 witness: the determinism conjunct evaluated at a fixed tuple with
nonce 42 under two different clock and random draws. -/
theorem claim_C4_hash_determinism_witness :
    generateHash "u9" "penalty" (-3) (some 12345) (some 42) "now1" "0.111" =
      generateHash "u9" "penalty" (-3) (some 12345) (some 42) "now2" "0.999" :=
  claim_C4_hash_determinism.1 "u9" "penalty" (-3) 12345 42 "now1" "0.111" "now2" "0.999"
    (by decide) (by decide)

/-- C8: over any result set of exactly 35 transactions, the pagination of
the transactions route returns the first 20 documents for limit 20 and
offset 0 and the remaining 15 for offset 20; when the result set has no
duplicate documents the two pages share no document, and the second page
reports hasMore false. -/
theorem claim_C8_pagination (l : List Obj) (h : l.length = 35) :
    (paginate l 20 0).1 = l.take 20 ∧
    (paginate l 20 0).1.length = 20 ∧
    (paginate l 20 20).1 = l.drop 20 ∧
    (paginate l 20 20).1.length = 15 ∧
    (l.Nodup → ∀ x ∈ (paginate l 20 0).1, x ∉ (paginate l 20 20).1) ∧
    (paginate l 20 20).2.hasMore = false := by
  have h40 : l.take 40 = l := List.take_of_length_le (by omega)
  refine ⟨?_, ?_, ?_, ?_, ?_, ?_⟩
  · simp [paginate, jsSlice]
  · simp [paginate, jsSlice, h]
  · simp [paginate, jsSlice, h40]
  · simp [paginate, jsSlice, h40, h]
  · intro hnd x hx1 hx2
    simp only [paginate, jsSlice, Nat.zero_add, List.drop_zero, h40] at hx1 hx2
    exact List.disjoint_take_drop hnd (Nat.le_refl 20) hx1 hx2
  · simp [paginate, h]

/-- C8 witness: the pagination statement evaluated on a concrete result
set of 35 distinct documents. -/
theorem claim_C8_pagination_witness :
    ((List.range 35).map (fun i => ([("_id", Jval.str (toString i))] : Obj))).length = 35 ∧
    (paginate ((List.range 35).map (fun i => ([("_id", Jval.str (toString i))] : Obj)))
        20 0).1.length = 20 ∧
    (paginate ((List.range 35).map (fun i => ([("_id", Jval.str (toString i))] : Obj)))
        20 20).1.length = 15 ∧
    (paginate ((List.range 35).map (fun i => ([("_id", Jval.str (toString i))] : Obj)))
        20 20).2.hasMore = false :=
  ⟨by decide,
   (claim_C8_pagination _ (by decide)).2.1,
   (claim_C8_pagination _ (by decide)).2.2.2.1,
   (claim_C8_pagination _ (by decide)).2.2.2.2.2⟩

theorem redeem_voucher_missing (st : FsState) (userId voucherId : String)
    (q now : Int) (txId : String) (user : Obj)
    (hu : findUser st.users { uid := userId } = some user)
    (hv : (findVouchers st.vouchers {}).find? (fun v => idMatches v voucherId) = none) :
    redeemHandler st userId voucherId q now txId =
      (RedeemResult.err 404 "Voucher not found", st) := by
  unfold redeemHandler
  rw [hu, hv]

theorem redeem_inactive (st : FsState) (userId voucherId : String)
    (q now : Int) (txId : String) (user voucher : Obj)
    (hu : findUser st.users { uid := userId } = some user)
    (hv : (findVouchers st.vouchers {}).find? (fun v => idMatches v voucherId) = some voucher)
    (hact : jsTruthy (objGetPath voucher ["validity", "isActive"]) = false) :
    redeemHandler st userId voucherId q now txId =
      (RedeemResult.err 400 "Voucher is not active", st) := by
  unfold redeemHandler
  simp only [hu, hv]
  simp [hact]

theorem redeem_out_of_window (st : FsState) (userId voucherId : String)
    (q now : Int) (txId : String) (user voucher : Obj)
    (hu : findUser st.users { uid := userId } = some user)
    (hv : (findVouchers st.vouchers {}).find? (fun v => idMatches v voucherId) = some voucher)
    (hact : jsTruthy (objGetPath voucher ["validity", "isActive"]) = true)
    (hwin : (jsLt (some now) (toDateNum (objGetPath voucher ["validity", "startDate"])) ||
             jsLt (toDateNum (objGetPath voucher ["validity", "endDate"])) (some now)) = true) :
    redeemHandler st userId voucherId q now txId =
      (RedeemResult.err 400 "Voucher is expired or not yet active", st) := by
  unfold redeemHandler
  simp only [hu, hv]
  simp only [hact, Bool.not_true, Bool.false_eq_true, if_false]
  simp only [hwin, if_true]

theorem redeem_over_per_user_cap (st : FsState) (userId voucherId : String)
    (q now : Int) (txId : String) (user voucher : Obj) (p : Int)
    (hu : findUser st.users { uid := userId } = some user)
    (hv : (findVouchers st.vouchers {}).find? (fun v => idMatches v voucherId) = some voucher)
    (hact : jsTruthy (objGetPath voucher ["validity", "isActive"]) = true)
    (hwin : (jsLt (some now) (toDateNum (objGetPath voucher ["validity", "startDate"])) ||
             jsLt (toDateNum (objGetPath voucher ["validity", "endDate"])) (some now)) = false)
    (hpval : objGetPath voucher ["usage", "limit", "perUser"] = some (Jval.int p))
    (hp0 : p ≠ 0) (hpq : p < q) :
    redeemHandler st userId voucherId q now txId =
      (RedeemResult.err 400
        ("Maximum " ++ toString p ++ " vouchers per user allowed"), st) := by
  unfold redeemHandler
  simp only [hu, hv]
  simp only [hact, Bool.not_true, Bool.false_eq_true, if_false]
  simp only [hwin, Bool.false_eq_true, if_false]
  simp [hpval, jsTruthy, toNum, jsLt, jsDisplay, hp0, hpq]

theorem redeem_insufficient (st : FsState) (userId voucherId : String)
    (q now : Int) (txId : String) (user voucher : Obj) (b c : Int)
    (hu : findUser st.users { uid := userId } = some user)
    (hv : (findVouchers st.vouchers {}).find? (fun v => idMatches v voucherId) = some voucher)
    (hact : jsTruthy (objGetPath voucher ["validity", "isActive"]) = true)
    (hwin : (jsLt (some now) (toDateNum (objGetPath voucher ["validity", "startDate"])) ||
             jsLt (toDateNum (objGetPath voucher ["validity", "endDate"])) (some now)) = false)
    (hper : (jsTruthy (objGetPath voucher ["usage", "limit", "perUser"]) &&
             jsLt (toNum (objGetPath voucher ["usage", "limit", "perUser"])) (some q)) = false)
    (hcost : objGetPath voucher ["cost", "credits"] = some (Jval.int c))
    (hcred : objGet user "credits" = some (Jval.int b))
    (hblt : b < c * q) :
    redeemHandler st userId voucherId q now txId =
      (RedeemResult.err 400 "Insufficient credits", st) := by
  unfold redeemHandler
  simp only [hu, hv]
  simp only [hact, Bool.not_true, Bool.false_eq_true, if_false]
  simp only [hwin, Bool.false_eq_true, if_false]
  simp only [hper, Bool.false_eq_true, if_false]
  simp only [hcost, hcred, toNum, jsMul, jsLt, decide_eq_true_eq]
  rw [if_pos hblt]

theorem redeem_success (st : FsState) (userId voucherId : String) (q : Int)
    (now : Int) (txId : String) (user voucher : Obj) (b c : Int)
    (huid : userId ≠ "")
    (hu : findUser st.users { uid := userId } = some user)
    (hv : (findVouchers st.vouchers {}).find? (fun v => idMatches v voucherId) = some voucher)
    (hact : jsTruthy (objGetPath voucher ["validity", "isActive"]) = true)
    (hwin : (jsLt (some now) (toDateNum (objGetPath voucher ["validity", "startDate"])) ||
             jsLt (toDateNum (objGetPath voucher ["validity", "endDate"])) (some now)) = false)
    (hper : (jsTruthy (objGetPath voucher ["usage", "limit", "perUser"]) &&
             jsLt (toNum (objGetPath voucher ["usage", "limit", "perUser"])) (some q)) = false)
    (hcost : objGetPath voucher ["cost", "credits"] = some (Jval.int c))
    (hcred : objGet user "credits" = some (Jval.int b))
    (hble : ¬ (b < c * q)) :
    (redeemHandler st userId voucherId q now txId).1.isOk = true ∧
    (redeemHandler st userId voucherId q now txId).1.balance = some (b - c * q) ∧
    userCredits (redeemHandler st userId voucherId q now txId).2.users userId =
      some (Jval.int (b - c * q)) ∧
    (redeemHandler st userId voucherId q now txId).2.transactions.length =
      st.transactions.length + 1 ∧
    ((redeemHandler st userId voucherId q now txId).2.transactions.getLast?).bind
        (fun t => objGet t "category") = some (Jval.str "spending") ∧
    ((redeemHandler st userId voucherId q now txId).2.transactions.getLast?).bind
        (fun t => objGetPath t ["metadata", "voucherId"]) = some (Jval.str voucherId) ∧
    ((redeemHandler st userId voucherId q now txId).2.transactions.getLast?).bind
        (fun t => objGet t "amount") = some (Jval.int (-(c * q))) := by
  have hfind : st.users.find? (fun x => idMatches x userId) = some user := by
    rw [← findUser_eq_find? _ _ huid]; exact hu
  have humatch := @List.find?_some _ (fun x => idMatches x userId) user st.users hfind
  have hid : objGet user "_id" = some (Jval.str userId) := strictEqStr_eq humatch
  have hvmatch := @List.find?_some _ (fun v => idMatches v voucherId) voucher
    (findVouchers st.vouchers {}) hv
  have hvid : objGet voucher "_id" = some (Jval.str voucherId) := strictEqStr_eq hvmatch
  have hnocl : ∀ kv ∈ [(("credits" : String), Jval.int (b - c * q))], kv.1 ≠ "_id" := by
    rintro ⟨k1, v1⟩ hm
    simp at hm
    simp [hm.1]
  have hkeep : idMatches (objSet (objMergeList user
      [("credits", Jval.int (b - c * q))]) "updatedAt" (Jval.int now)) userId = true := by
    unfold idMatches
    rw [objGet_update_merged_ne user _ now "_id" hnocl (by decide), hid]
    simp [strictEqStr]
  unfold redeemHandler
  simp only [hu, hv]
  simp only [hact, Bool.not_true, Bool.false_eq_true, if_false]
  simp only [hwin, Bool.false_eq_true, if_false]
  simp only [hper, Bool.false_eq_true, if_false]
  simp only [hcost, hcred]
  simp only [toNum, jsMul, jsLt, decide_eq_true_eq, jsSub, jsNeg, jnumJval]
  rw [if_neg hble]
  refine ⟨rfl, rfl, ?_, ?_, ?_, ?_, ?_⟩
  · show userCredits (updateById st.users userId
        [("credits", Jval.int (b - c * q))] now).1 userId = some (Jval.int (b - c * q))
    rw [userCredits, findUser_eq_find? _ _ huid]
    rw [updateById_fst_find? st.users userId _ now user hfind hkeep]
    show objGet (objSet (objMergeList user [("credits", Jval.int (b - c * q))])
        "updatedAt" (Jval.int now)) "credits" = some (Jval.int (b - c * q))
    exact objGet_update_merged_single user "credits" _ now (by decide)
  · simp [createDoc]
  · simp [createDoc, objMergeList, objSet, objGet]
  · simp [createDoc, objMergeList, objSet, objGet, objGetPath, hvid]
  · simp [createDoc, objMergeList, objSet, objGet]

theorem maximum_msg_head (p : Int) :
    ("Maximum " ++ toString p ++ " vouchers per user allowed").data.head? = some 'M' := by
  generalize toString p = t
  cases t with
  | mk d => rfl

theorem maximum_msg_ne (p : Int) (s : String) (hs : s.data.head? ≠ some 'M') :
    ("Maximum " ++ toString p ++ " vouchers per user allowed") ≠ s := by
  intro h
  apply hs
  rw [← h]
  exact maximum_msg_head p

/-- C3 (evaluation at the failing input): a successful redemption of one
unit of the fresh voucher debits the user from 200 to 50 and appends one
spending transaction referencing the voucher, but the nested counter
usage.limit.used of the stored voucher still reads 0 — the computed value
1 lands under a literal top-level property named usage.limit.used, because
the MongoDB-style dotted path given to FileStorage.updateVoucher is merged
by a shallow object spread that cannot address nested fields. -/
theorem claim_C3_nested_counter_unchanged :
    ((storedVoucher (redeemHandler freshState "u1" "v2" 1 1000 "t1").2 "v2").bind
        (fun v => objGetPath v ["usage", "limit", "used"])) = some (Jval.int 0) ∧
    ((storedVoucher (redeemHandler freshState "u1" "v2" 1 1000 "t1").2 "v2").bind
        (fun v => objGet v "usage.limit.used")) = some (Jval.int 1) ∧
    userCredits (redeemHandler freshState "u1" "v2" 1 1000 "t1").2.users "u1" =
      some (Jval.int 50) ∧
    (redeemHandler freshState "u1" "v2" 1 1000 "t1").2.transactions.length = 1 ∧
    ((redeemHandler freshState "u1" "v2" 1 1000 "t1").2.transactions.getLast?).bind
        (fun t => objGet t "category") = some (Jval.str "spending") ∧
    ((redeemHandler freshState "u1" "v2" 1 1000 "t1").2.transactions.getLast?).bind
        (fun t => objGetPath t ["metadata", "voucherId"]) = some (Jval.str "v2") := by
  exact ⟨rfl, rfl, rfl, rfl, rfl, rfl⟩

/-- C2 counterexample: the voucher of the cap fixture has total 1 and
used 1, yet redeeming it succeeds — the response is the success payload,
the balance of the user drops from 200 to 150 and a transaction is
appended — where the claim requires rejection with no state mutation. -/
theorem claim_C2_counterexample :
    (redeemHandler capState "u1" "v1" 1 1000 "t1").1.isOk = true ∧
    userCredits (redeemHandler capState "u1" "v1" 1 1000 "t1").2.users "u1" =
      some (Jval.int 150) ∧
    (redeemHandler capState "u1" "v1" 1 1000 "t1").2.transactions.length = 1 := by
  exact ⟨rfl, rfl, rfl⟩

/-- C2 (amended): the redeem route never consults usage.limit.total — a
redemption whose voucher already has used at or past a finite total still
succeeds whenever the checks the route does make (active, window,
per-user cap, balance) pass, debiting the user and appending a ledger
entry; the cap is enforced only by the Mongoose Voucher model, whose
isAvailable virtual is false for an at-cap voucher. -/
theorem claim_C2_total_cap_not_enforced :
    (∀ (st : FsState) (userId voucherId : String) (q now : Int) (txId : String)
        (user voucher : Obj) (b c tot used : Int),
      userId ≠ "" →
      findUser st.users { uid := userId } = some user →
      (findVouchers st.vouchers {}).find? (fun v => idMatches v voucherId) = some voucher →
      jsTruthy (objGetPath voucher ["validity", "isActive"]) = true →
      (jsLt (some now) (toDateNum (objGetPath voucher ["validity", "startDate"])) ||
       jsLt (toDateNum (objGetPath voucher ["validity", "endDate"])) (some now)) = false →
      (jsTruthy (objGetPath voucher ["usage", "limit", "perUser"]) &&
       jsLt (toNum (objGetPath voucher ["usage", "limit", "perUser"])) (some q)) = false →
      objGetPath voucher ["usage", "limit", "total"] = some (Jval.int tot) →
      objGetPath voucher ["usage", "limit", "used"] = some (Jval.int used) →
      tot ≤ used →
      objGetPath voucher ["cost", "credits"] = some (Jval.int c) →
      objGet user "credits" = some (Jval.int b) →
      ¬ (b < c * q) →
      (redeemHandler st userId voucherId q now txId).1.isOk = true ∧
      userCredits (redeemHandler st userId voucherId q now txId).2.users userId =
        some (Jval.int (b - c * q)) ∧
      (redeemHandler st userId voucherId q now txId).2.transactions.length =
        st.transactions.length + 1) ∧
    (∀ (v : MVoucher) (now tot : Int), v.total = some tot → tot ≤ v.used →
      voucherIsAvailable v now = false) := by
  constructor
  · intro st userId voucherId q now txId user voucher b c tot used huid hu hv hact hwin
      hper _ _ _ hcost hcred hble
    have h := redeem_success st userId voucherId q now txId user voucher b c huid hu hv
      hact hwin hper hcost hcred hble
    exact ⟨h.1, h.2.2.1, h.2.2.2.1⟩
  · intro v now tot h1 h2
    simp [voucherIsAvailable, h1, jsLt]
    omega

/-- C2 witness: the amended statement evaluated on the cap fixture, whose
voucher has total 1 and used 1, and on the corresponding model voucher. -/
theorem claim_C2_total_cap_not_enforced_witness :
    ((redeemHandler capState "u1" "v1" 1 1000 "t1").1.isOk = true ∧
     userCredits (redeemHandler capState "u1" "v1" 1 1000 "t1").2.users "u1" =
       some (Jval.int (200 - 50 * 1)) ∧
     (redeemHandler capState "u1" "v1" 1 1000 "t1").2.transactions.length =
       capState.transactions.length + 1) ∧
    voucherIsAvailable (MVoucher.mk true 2000000000000 (some 1) 1) 1000 = false :=
  ⟨claim_C2_total_cap_not_enforced.1 capState "u1" "v1" 1 1000 "t1" userFixture capVoucher
      200 50 1 1 (by decide) rfl rfl rfl rfl rfl rfl rfl (by decide) rfl rfl (by decide),
   claim_C2_total_cap_not_enforced.2 (MVoucher.mk true 2000000000000 (some 1) 1) 1000 1
      rfl (by decide)⟩

/-- C6: a debit through User.deductCredits fails (throws, saving nothing)
exactly when the amount exceeds the balance and otherwise subtracts it
exactly; a redemption whose total cost exceeds the balance is answered
with the Insufficient credits reason and returns the storage state
exactly as it was, and one whose cost is affordable reports and stores a
balance reduced by exactly cost.credits times quantity. -/
theorem claim_C6_insufficient_funds :
    (∀ (u : MUser) (amount : Int), u.credits < amount → deductCredits u amount = none) ∧
    (∀ (u : MUser) (amount : Int), amount ≤ u.credits →
      deductCredits u amount = some { credits := u.credits - amount }) ∧
    (∀ (st : FsState) (userId voucherId : String) (q now : Int) (txId : String)
        (user voucher : Obj) (b c : Int),
      findUser st.users { uid := userId } = some user →
      (findVouchers st.vouchers {}).find? (fun v => idMatches v voucherId) = some voucher →
      jsTruthy (objGetPath voucher ["validity", "isActive"]) = true →
      (jsLt (some now) (toDateNum (objGetPath voucher ["validity", "startDate"])) ||
       jsLt (toDateNum (objGetPath voucher ["validity", "endDate"])) (some now)) = false →
      (jsTruthy (objGetPath voucher ["usage", "limit", "perUser"]) &&
       jsLt (toNum (objGetPath voucher ["usage", "limit", "perUser"])) (some q)) = false →
      objGetPath voucher ["cost", "credits"] = some (Jval.int c) →
      objGet user "credits" = some (Jval.int b) →
      b < c * q →
      redeemHandler st userId voucherId q now txId =
        (RedeemResult.err 400 "Insufficient credits", st)) ∧
    (∀ (st : FsState) (userId voucherId : String) (q now : Int) (txId : String)
        (user voucher : Obj) (b c : Int),
      userId ≠ "" →
      findUser st.users { uid := userId } = some user →
      (findVouchers st.vouchers {}).find? (fun v => idMatches v voucherId) = some voucher →
      jsTruthy (objGetPath voucher ["validity", "isActive"]) = true →
      (jsLt (some now) (toDateNum (objGetPath voucher ["validity", "startDate"])) ||
       jsLt (toDateNum (objGetPath voucher ["validity", "endDate"])) (some now)) = false →
      (jsTruthy (objGetPath voucher ["usage", "limit", "perUser"]) &&
       jsLt (toNum (objGetPath voucher ["usage", "limit", "perUser"])) (some q)) = false →
      objGetPath voucher ["cost", "credits"] = some (Jval.int c) →
      objGet user "credits" = some (Jval.int b) →
      ¬ (b < c * q) →
      (redeemHandler st userId voucherId q now txId).1.balance = some (b - c * q) ∧
      userCredits (redeemHandler st userId voucherId q now txId).2.users userId =
        some (Jval.int (b - c * q))) := by
  refine ⟨?_, ?_, ?_, ?_⟩
  · intro u amount h
    simp [deductCredits, canAfford]
    omega
  · intro u amount h
    simp [deductCredits, canAfford, h]
  · intro st userId voucherId q now txId user voucher b c hu hv hact hwin hper hcost
      hcred hblt
    exact redeem_insufficient st userId voucherId q now txId user voucher b c hu hv hact
      hwin hper hcost hcred hblt
  · intro st userId voucherId q now txId user voucher b c huid hu hv hact hwin hper hcost
      hcred hble
    have h := redeem_success st userId voucherId q now txId user voucher b c huid hu hv
      hact hwin hper hcost hcred hble
    exact ⟨h.2.1, h.2.2.1⟩

/-- C6 witness: the statement evaluated on the fresh-voucher fixture — a
user with 200 credits cannot afford quantity 2 at 150 credits each (the
state is returned unchanged), and affords quantity 1, ending at 50. -/
theorem claim_C6_insufficient_funds_witness :
    deductCredits ⟨100⟩ 150 = none ∧
    deductCredits ⟨100⟩ 40 = some { credits := (100 : Int) - 40 } ∧
    redeemHandler freshState "u1" "v2" 2 1000 "t1" =
      (RedeemResult.err 400 "Insufficient credits", freshState) ∧
    ((redeemHandler freshState "u1" "v2" 1 1000 "t1").1.balance =
        some (200 - 150 * 1) ∧
      userCredits (redeemHandler freshState "u1" "v2" 1 1000 "t1").2.users "u1" =
        some (Jval.int (200 - 150 * 1))) :=
  ⟨claim_C6_insufficient_funds.1 ⟨100⟩ 150 (by decide),
   claim_C6_insufficient_funds.2.1 ⟨100⟩ 40 (by decide),
   claim_C6_insufficient_funds.2.2.1 freshState "u1" "v2" 2 1000 "t1" userFixture
     freshVoucher 200 150 rfl rfl rfl rfl rfl rfl rfl (by decide),
   claim_C6_insufficient_funds.2.2.2 freshState "u1" "v2" 1 1000 "t1" userFixture
     freshVoucher 200 150 (by decide) rfl rfl rfl rfl rfl rfl rfl (by decide)⟩

/-- C7: for a request that reaches the precondition cascade the redeem
route checks, in order: voucher exists (404 Voucher not found), voucher
active (Voucher is not active), current time inside the validity window
(Voucher is expired or not yet active), quantity within the per-user cap
(Maximum N vouchers per user allowed), and affordability (Insufficient
credits); the first failing check answers with its own reason and the
state untouched, and the five reason strings are pairwise distinct for
every cap value N. -/
theorem claim_C7_precondition_order :
    (∀ (st : FsState) (userId voucherId : String) (q now : Int) (txId : String)
        (user : Obj),
      findUser st.users { uid := userId } = some user →
      (findVouchers st.vouchers {}).find? (fun v => idMatches v voucherId) = none →
      redeemHandler st userId voucherId q now txId =
        (RedeemResult.err 404 "Voucher not found", st)) ∧
    (∀ (st : FsState) (userId voucherId : String) (q now : Int) (txId : String)
        (user voucher : Obj),
      findUser st.users { uid := userId } = some user →
      (findVouchers st.vouchers {}).find? (fun v => idMatches v voucherId) = some voucher →
      jsTruthy (objGetPath voucher ["validity", "isActive"]) = false →
      redeemHandler st userId voucherId q now txId =
        (RedeemResult.err 400 "Voucher is not active", st)) ∧
    (∀ (st : FsState) (userId voucherId : String) (q now : Int) (txId : String)
        (user voucher : Obj),
      findUser st.users { uid := userId } = some user →
      (findVouchers st.vouchers {}).find? (fun v => idMatches v voucherId) = some voucher →
      jsTruthy (objGetPath voucher ["validity", "isActive"]) = true →
      (jsLt (some now) (toDateNum (objGetPath voucher ["validity", "startDate"])) ||
       jsLt (toDateNum (objGetPath voucher ["validity", "endDate"])) (some now)) = true →
      redeemHandler st userId voucherId q now txId =
        (RedeemResult.err 400 "Voucher is expired or not yet active", st)) ∧
    (∀ (st : FsState) (userId voucherId : String) (q now : Int) (txId : String)
        (user voucher : Obj) (p : Int),
      findUser st.users { uid := userId } = some user →
      (findVouchers st.vouchers {}).find? (fun v => idMatches v voucherId) = some voucher →
      jsTruthy (objGetPath voucher ["validity", "isActive"]) = true →
      (jsLt (some now) (toDateNum (objGetPath voucher ["validity", "startDate"])) ||
       jsLt (toDateNum (objGetPath voucher ["validity", "endDate"])) (some now)) = false →
      objGetPath voucher ["usage", "limit", "perUser"] = some (Jval.int p) →
      p ≠ 0 → p < q →
      redeemHandler st userId voucherId q now txId =
        (RedeemResult.err 400
          ("Maximum " ++ toString p ++ " vouchers per user allowed"), st)) ∧
    (∀ (st : FsState) (userId voucherId : String) (q now : Int) (txId : String)
        (user voucher : Obj) (b c : Int),
      findUser st.users { uid := userId } = some user →
      (findVouchers st.vouchers {}).find? (fun v => idMatches v voucherId) = some voucher →
      jsTruthy (objGetPath voucher ["validity", "isActive"]) = true →
      (jsLt (some now) (toDateNum (objGetPath voucher ["validity", "startDate"])) ||
       jsLt (toDateNum (objGetPath voucher ["validity", "endDate"])) (some now)) = false →
      (jsTruthy (objGetPath voucher ["usage", "limit", "perUser"]) &&
       jsLt (toNum (objGetPath voucher ["usage", "limit", "perUser"])) (some q)) = false →
      objGetPath voucher ["cost", "credits"] = some (Jval.int c) →
      objGet user "credits" = some (Jval.int b) →
      b < c * q →
      redeemHandler st userId voucherId q now txId =
        (RedeemResult.err 400 "Insufficient credits", st)) ∧
    (("Voucher not found" : String) ≠ "Voucher is not active" ∧
     ("Voucher not found" : String) ≠ "Voucher is expired or not yet active" ∧
     ("Voucher not found" : String) ≠ "Insufficient credits" ∧
     ("Voucher is not active" : String) ≠ "Voucher is expired or not yet active" ∧
     ("Voucher is not active" : String) ≠ "Insufficient credits" ∧
     ("Voucher is expired or not yet active" : String) ≠ "Insufficient credits") ∧
    (∀ p : Int,
      ("Maximum " ++ toString p ++ " vouchers per user allowed") ≠ "Voucher not found" ∧
      ("Maximum " ++ toString p ++ " vouchers per user allowed") ≠ "Voucher is not active" ∧
      ("Maximum " ++ toString p ++ " vouchers per user allowed") ≠
        "Voucher is expired or not yet active" ∧
      ("Maximum " ++ toString p ++ " vouchers per user allowed") ≠ "Insufficient credits") := by
  refine ⟨?_, ?_, ?_, ?_, ?_, by refine ⟨?_, ?_, ?_, ?_, ?_, ?_⟩ <;> decide, ?_⟩
  · intro st userId voucherId q now txId user hu hv
    exact redeem_voucher_missing st userId voucherId q now txId user hu hv
  · intro st userId voucherId q now txId user voucher hu hv hact
    exact redeem_inactive st userId voucherId q now txId user voucher hu hv hact
  · intro st userId voucherId q now txId user voucher hu hv hact hwin
    exact redeem_out_of_window st userId voucherId q now txId user voucher hu hv hact hwin
  · intro st userId voucherId q now txId user voucher p hu hv hact hwin hpval hp0 hpq
    exact redeem_over_per_user_cap st userId voucherId q now txId user voucher p hu hv
      hact hwin hpval hp0 hpq
  · intro st userId voucherId q now txId user voucher b c hu hv hact hwin hper hcost
      hcred hblt
    exact redeem_insufficient st userId voucherId q now txId user voucher b c hu hv hact
      hwin hper hcost hcred hblt
  · intro p
    exact ⟨maximum_msg_ne p _ (by decide), maximum_msg_ne p _ (by decide),
      maximum_msg_ne p _ (by decide), maximum_msg_ne p _ (by decide)⟩

/-- C7 witness: each precondition failure evaluated on a concrete
fixture — a missing voucher id, the inactive voucher, the expired
voucher, a quantity of 6 against a per-user cap of 5, and a quantity of 2
that costs 300 against a balance of 200. -/
theorem claim_C7_precondition_order_witness :
    redeemHandler noVoucherState "u1" "nope" 1 1000 "t1" =
      (RedeemResult.err 404 "Voucher not found", noVoucherState) ∧
    redeemHandler inactiveState "u1" "v3" 1 1000 "t1" =
      (RedeemResult.err 400 "Voucher is not active", inactiveState) ∧
    redeemHandler inactiveState "u1" "v4" 1 1000 "t1" =
      (RedeemResult.err 400 "Voucher is expired or not yet active", inactiveState) ∧
    redeemHandler freshState "u1" "v2" 6 1000 "t1" =
      (RedeemResult.err 400
        ("Maximum " ++ toString (5 : Int) ++ " vouchers per user allowed"), freshState) ∧
    redeemHandler freshState "u1" "v2" 2 1000 "t1" =
      (RedeemResult.err 400 "Insufficient credits", freshState) :=
  ⟨claim_C7_precondition_order.1 noVoucherState "u1" "nope" 1 1000 "t1" userFixture
     rfl rfl,
   claim_C7_precondition_order.2.1 inactiveState "u1" "v3" 1 1000 "t1" userFixture
     inactiveVoucher rfl rfl rfl,
   claim_C7_precondition_order.2.2.1 inactiveState "u1" "v4" 1 1000 "t1" userFixture
     expiredVoucher rfl rfl rfl (by decide),
   claim_C7_precondition_order.2.2.2.1 freshState "u1" "v2" 6 1000 "t1" userFixture
     freshVoucher 5 rfl rfl rfl rfl rfl (by decide) (by decide),
   claim_C7_precondition_order.2.2.2.2.1 freshState "u1" "v2" 2 1000 "t1" userFixture
     freshVoucher 200 150 rfl rfl rfl rfl rfl rfl rfl (by decide)⟩

theorem putTask_already_done (st : FsState) (userId taskId : String)
    (now : Int) (txId : String) (task : Obj)
    (htask : (findTasks st.tasks { user := userId }).find? (fun t => idMatches t taskId) =
      some task)
    (hdone : strictEqStr (objGet task "status") "completed" = true) :
    (putTaskHandler st userId taskId "completed" none "" now txId).2.users = st.users ∧
    (putTaskHandler st userId taskId "completed" none "" now txId).2.transactions =
      st.transactions := by
  unfold putTaskHandler
  simp only [htask]
  simp [hdone]

theorem putTask_reward (st : FsState) (userId taskId : String)
    (now : Int) (txId : String) (task user : Obj) (b r : Int)
    (huid : userId ≠ "")
    (htask : (findTasks st.tasks { user := userId }).find? (fun t => idMatches t taskId) =
      some task)
    (hfull : st.tasks.find? (fun t => idMatches t taskId) = some task)
    (hnotdone : strictEqStr (objGet task "status") "completed" = false)
    (hu : findUser st.users { uid := userId } = some user)
    (hcred : objGet user "credits" = some (Jval.int b))
    (hr : objGet task "credits" = some (Jval.int r)) :
    userCredits (putTaskHandler st userId taskId "completed" none "" now txId).2.users
      userId = some (Jval.int (b + r)) ∧
    (putTaskHandler st userId taskId "completed" none "" now txId).2.transactions.length =
      st.transactions.length + 1 ∧
    ((putTaskHandler st userId taskId "completed" none "" now txId).2.transactions.getLast?).bind
      (fun t => objGet t "category") = some (Jval.str "earning") ∧
    ((putTaskHandler st userId taskId "completed" none "" now txId).2.transactions.getLast?).bind
      (fun t => objGet t "amount") = some (Jval.int r) ∧
    storedTaskStatus (putTaskHandler st userId taskId "completed" none "" now txId).2
      userId taskId = some (Jval.str "completed") := by
  have hfind : st.users.find? (fun x => idMatches x userId) = some user := by
    rw [← findUser_eq_find? _ _ huid]; exact hu
  have humatch := @List.find?_some _ (fun x => idMatches x userId) user st.users hfind
  have hid : objGet user "_id" = some (Jval.str userId) := strictEqStr_eq humatch
  have htmatch := @List.find?_some _ (fun t => idMatches t taskId) task
    (findTasks st.tasks { user := userId }) htask
  have htid : objGet task "_id" = some (Jval.str taskId) := strictEqStr_eq htmatch
  have htmem := @List.mem_of_find?_eq_some _ (fun t => idMatches t taskId) task
    (findTasks st.tasks { user := userId }) htask
  have htq : taskMatches { user := userId } task = true :=
    (List.mem_filter.mp htmem).2
  have htuser : strictEqStr (objGet task "user") userId = true := by
    simp [taskMatches, huid] at htq
    exact htq
  have hnostat : ∀ kv ∈ [(("status" : String), Jval.str "completed")], kv.1 ≠ "_id" := by
    rintro ⟨k1, v1⟩ hm
    simp at hm
    simp [hm.1]
  have hnostat2 : ∀ kv ∈ [(("status" : String), Jval.str "completed")], kv.1 ≠ "user" := by
    rintro ⟨k1, v1⟩ hm
    simp at hm
    simp [hm.1]
  have hkeepT : idMatches (objSet (objMergeList task
      [("status", Jval.str "completed")]) "updatedAt" (Jval.int now)) taskId = true := by
    unfold idMatches
    rw [objGet_update_merged_ne task _ now "_id" hnostat (by decide), htid]
    simp [strictEqStr]
  have hqT : taskMatches { user := userId } (objSet (objMergeList task
      [("status", Jval.str "completed")]) "updatedAt" (Jval.int now)) = true := by
    simp only [taskMatches]
    rw [objGet_update_merged_ne task _ now "user" hnostat2 (by decide)]
    simp [huid, htuser]
  unfold putTaskHandler
  simp only [htask]
  simp only [hnotdone, Bool.not_false, Bool.and_true, ne_eq, decide_eq_true_eq,
    reduceIte, List.append_nil, List.nil_append]
  simp only [hu]
  simp only [hcred, hr, toNum, jsAdd, jnumJval]
  refine ⟨?_, ?_, ?_, ?_, ?_⟩
  · show userCredits ((updateById (updateById st.users userId
        [("credits", Jval.int (b + r))] now).1 userId
        [("stats", Jval.obj (objMergeList (statsFields user)
          [("tasksCompleted",
            Jval.int (jsNumOrZero (objGetPath user ["stats", "tasksCompleted"]) + 1))]))]
        now).1) userId = some (Jval.int (b + r))
    have hnoc1 : ∀ kv ∈ [(("credits" : String), Jval.int (b + r))], kv.1 ≠ "_id" := by
      rintro ⟨k1, v1⟩ hm
      simp at hm
      simp [hm.1]
    have hkeep1 : idMatches (objSet (objMergeList user
        [("credits", Jval.int (b + r))]) "updatedAt" (Jval.int now)) userId = true := by
      unfold idMatches
      rw [objGet_update_merged_ne user _ now "_id" hnoc1 (by decide), hid]
      simp [strictEqStr]
    have hfind1 := updateById_fst_find? st.users userId
      [("credits", Jval.int (b + r))] now user hfind hkeep1
    have hid1 : objGet (objSet (objMergeList user [("credits", Jval.int (b + r))])
        "updatedAt" (Jval.int now)) "_id" = some (Jval.str userId) := by
      rw [objGet_update_merged_ne user _ now "_id" hnoc1 (by decide)]
      exact hid
    have hnoc2 : ∀ kv ∈ [(("stats" : String), Jval.obj (objMergeList (statsFields user)
        [("tasksCompleted",
          Jval.int (jsNumOrZero (objGetPath user ["stats", "tasksCompleted"]) + 1))]))],
        kv.1 ≠ "_id" := by
      rintro ⟨k1, v1⟩ hm
      simp at hm
      simp [hm.1]
    have hnoc2c : ∀ kv ∈ [(("stats" : String), Jval.obj (objMergeList (statsFields user)
        [("tasksCompleted",
          Jval.int (jsNumOrZero (objGetPath user ["stats", "tasksCompleted"]) + 1))]))],
        kv.1 ≠ "credits" := by
      rintro ⟨k1, v1⟩ hm
      simp at hm
      simp [hm.1]
    have hkeep2 : idMatches (objSet (objMergeList (objSet (objMergeList user
        [("credits", Jval.int (b + r))]) "updatedAt" (Jval.int now))
        [("stats", Jval.obj (objMergeList (statsFields user)
          [("tasksCompleted",
            Jval.int (jsNumOrZero (objGetPath user ["stats", "tasksCompleted"]) + 1))]))])
        "updatedAt" (Jval.int now)) userId = true := by
      unfold idMatches
      rw [objGet_update_merged_ne _ _ now "_id" hnoc2 (by decide), hid1]
      simp [strictEqStr]
    have hfind2 := updateById_fst_find? (updateById st.users userId
        [("credits", Jval.int (b + r))] now).1 userId
      [("stats", Jval.obj (objMergeList (statsFields user)
        [("tasksCompleted",
          Jval.int (jsNumOrZero (objGetPath user ["stats", "tasksCompleted"]) + 1))]))]
      now _ hfind1 hkeep2
    rw [userCredits, findUser_eq_find? _ _ huid, hfind2]
    show objGet (objSet (objMergeList _ _) "updatedAt" (Jval.int now)) "credits" =
      some (Jval.int (b + r))
    rw [objGet_update_merged_ne _ _ now "credits" hnoc2c (by decide)]
    exact objGet_update_merged_single user "credits" _ now (by decide)
  · simp [createDoc]
  · simp [createDoc, objMergeList, objSet, objGet]
  · simp [createDoc, objMergeList, objSet, objGet]
  · unfold storedTaskStatus findTasks
    have hUPD : ((if ¬("completed" : String) = "" then
        [(("status" : String), Jval.str "completed")] else ([] : Obj)) ++
        if ¬True then [(("notes" : String), Jval.str "")] else ([] : Obj)) =
        [(("status" : String), Jval.str "completed")] := by simp
    rw [hUPD]
    rw [find?_filter_updateById st.tasks taskId [("status", Jval.str "completed")] now task
      (taskMatches { user := userId }) hfull hkeepT hqT]
    show objGet (objSet (objMergeList task [("status", Jval.str "completed")])
      "updatedAt" (Jval.int now)) "status" = some (Jval.str "completed")
    exact objGet_update_merged_single task "status" _ now (by decide)

/-- C9: task progress never exceeds the target — updateProgress clamps at
the target, and an increment that reaches the target on an active task
flips the status to completed and stamps the completion time; in the
tasks route, a request completing a task that was not yet completed
credits the task reward to the user exactly once and appends one earning
transaction, after which the stored task reads completed, and a second
identical completion request on a task already completed leaves the
balance and the transaction log untouched. -/
theorem claim_C9_completion_once :
    (∀ (t : MTask) (inc now : Int), (updateProgress t inc now).current ≤ t.target) ∧
    (∀ (t : MTask) (inc now : Int), t.status = "active" → t.target ≤ t.current + inc →
      updateProgress t inc now =
        { current := t.target, target := t.target, status := "completed",
          completedAt := some now }) ∧
    (∀ (st : FsState) (userId taskId : String) (now : Int) (txId : String)
        (task user : Obj) (b r : Int),
      userId ≠ "" →
      (findTasks st.tasks { user := userId }).find? (fun t => idMatches t taskId) =
        some task →
      st.tasks.find? (fun t => idMatches t taskId) = some task →
      strictEqStr (objGet task "status") "completed" = false →
      findUser st.users { uid := userId } = some user →
      objGet user "credits" = some (Jval.int b) →
      objGet task "credits" = some (Jval.int r) →
      userCredits (putTaskHandler st userId taskId "completed" none "" now txId).2.users
        userId = some (Jval.int (b + r)) ∧
      (putTaskHandler st userId taskId "completed" none "" now txId).2.transactions.length =
        st.transactions.length + 1 ∧
      ((putTaskHandler st userId taskId "completed" none "" now
          txId).2.transactions.getLast?).bind (fun t => objGet t "category") =
        some (Jval.str "earning") ∧
      ((putTaskHandler st userId taskId "completed" none "" now
          txId).2.transactions.getLast?).bind (fun t => objGet t "amount") =
        some (Jval.int r) ∧
      storedTaskStatus (putTaskHandler st userId taskId "completed" none "" now txId).2
        userId taskId = some (Jval.str "completed")) ∧
    (∀ (st : FsState) (userId taskId : String) (now : Int) (txId : String) (task : Obj),
      (findTasks st.tasks { user := userId }).find? (fun t => idMatches t taskId) =
        some task →
      strictEqStr (objGet task "status") "completed" = true →
      (putTaskHandler st userId taskId "completed" none "" now txId).2.users = st.users ∧
      (putTaskHandler st userId taskId "completed" none "" now txId).2.transactions =
        st.transactions) := by
  refine ⟨?_, ?_, ?_, ?_⟩
  · intro t inc now
    unfold updateProgress
    dsimp only
    split
    · exact min_le_right _ _
    · exact min_le_right _ _
  · intro t inc now hact hreach
    unfold updateProgress
    dsimp only
    rw [min_eq_right hreach]
    rw [if_pos ⟨le_refl t.target, hact⟩]
  · intro st userId taskId now txId task user b r huid htask hfull hnotdone hu hcred hr
    exact putTask_reward st userId taskId now txId task user b r huid htask hfull
      hnotdone hu hcred hr
  · intro st userId taskId now txId task htask hdone
    exact putTask_already_done st userId taskId now txId task htask hdone

/-- C9 witness: the statement evaluated at a task with target 5 and
current 4 receiving an increment of 1, and on the task fixtures — the
open 50-credit task credits 200 to 250 exactly once, and the repeated
call on the completed fixture changes nothing. -/
theorem claim_C9_completion_once_witness :
    (updateProgress ⟨4, 5, "active", none⟩ 1 777).current ≤ 5 ∧
    updateProgress ⟨4, 5, "active", none⟩ 1 777 =
      { current := 5, target := 5, status := "completed", completedAt := some 777 } ∧
    (userCredits (putTaskHandler taskState "u1" "t1" "completed" none "" 1000
        "tx9").2.users "u1" = some (Jval.int (200 + 50)) ∧
      storedTaskStatus (putTaskHandler taskState "u1" "t1" "completed" none "" 1000
        "tx9").2 "u1" "t1" = some (Jval.str "completed")) ∧
    ((putTaskHandler doneTaskState "u1" "t1" "completed" none "" 1000 "tx9").2.users =
        doneTaskState.users ∧
      (putTaskHandler doneTaskState "u1" "t1" "completed" none "" 1000
        "tx9").2.transactions = doneTaskState.transactions) :=
  ⟨claim_C9_completion_once.1 ⟨4, 5, "active", none⟩ 1 777,
   claim_C9_completion_once.2.1 ⟨4, 5, "active", none⟩ 1 777 rfl (by decide),
   (fun h => ⟨h.1, h.2.2.2.2⟩)
     (claim_C9_completion_once.2.2.1 taskState "u1" "t1" 1000 "tx9" taskFixture
       userFixture 200 50 (by decide) rfl rfl rfl rfl rfl rfl),
   claim_C9_completion_once.2.2.2 doneTaskState "u1" "t1" 1000 "tx9" doneTaskFixture
     rfl rfl⟩

/-- C10: every transaction document in the page returned by the
transactions list route belongs to the authenticated (nonempty) user id —
whatever type, category, status or date filters, limit and offset the
request supplies — because the route always queries FileStorage with the
authenticated user id and every later stage only filters, reorders or
slices that result. -/
theorem claim_C10_list_ownership (st : FsState) (userId ty cat status : String)
    (limit offset : Nat) (sd ed : Option Int) (t : Obj)
    (huid : userId ≠ "")
    (ht : t ∈ (getTransactionsHandler st userId ty cat status limit offset sd ed).1) :
    objGet t "user" = some (Jval.str userId) := by
  unfold getTransactionsHandler paginate jsSlice at ht
  dsimp only at ht
  have h1 := List.take_subset _ _ (List.drop_subset _ _ ht)
  unfold sortByCreatedAtDesc at h1
  have h2 := (List.mem_mergeSort).mp h1
  have h3 : t ∈ findTransactions st.transactions
      { user := userId, type := ty, category := cat, status := status } := by
    by_cases hc : (sd.isSome || ed.isSome) = true
    · rw [if_pos hc] at h2
      exact (List.mem_filter.mp h2).1
    · rw [if_neg hc] at h2
      exact h2
  have h4 : txMatches { user := userId, type := ty, category := cat, status := status }
      t = true := (List.mem_filter.mp h3).2
  simp [txMatches, huid] at h4
  exact strictEqStr_eq h4.1.1

/-- C10 witness: the ownership statement evaluated on a state holding one
stored transaction of the fixture user, returned on the first page of an
unfiltered request. -/
theorem claim_C10_list_ownership_witness :
    objGet txFixture "user" = some (Jval.str "u1") :=
  claim_C10_list_ownership txState "u1" "" "" "" 20 0 none none txFixture
    (by decide)
    (by simp [getTransactionsHandler, txState, findTransactions, txFixture, txMatches,
      List.filter, strictEqStr, objGet, sortByCreatedAtDesc, List.mergeSort_singleton,
      paginate, jsSlice])

/-- C5 witness: three sequential creations by two different users receive
the block numbers 1, 2, 3. -/
theorem claim_C5_block_numbers_witness :
    (saveAllTx [] ["alice", "bob", "alice"]).map LedgerTx.blockNumber =
      List.range' 1 3 :=
  claim_C5_block_numbers ["alice", "bob", "alice"]
